import Mathlib

/-!
Verification of the GLOBAL-AI chat client (Transcript Controller and
Input Ingestion) against its specification.

The development shallowly embeds the stateful logic of the `Chat`
component (`src/unnamed/part_000`) and of `generateChatResponse`
(`src/src/services/ai.ts`).  Message ids, produced by
`Date.now().toString()` in the source, are modelled as naturals (the
decimal rendering is injective, so identity tests coincide);
`pending` in the spec is the source's `isThinking` field; external
readers (FileReader, mammoth, file.text()) are modelled by recording
their results on the input `File` value, and `puter.ai.chat` /
`generateChatResponse` outcomes are supplied as an explicit `Outcome`
argument, since both are remote services.
-/

namespace GlobalAI

/-- JavaScript whitespace test used by `String.prototype.trim`. -/
def isJsSpace (c : Char) : Bool :=
  c = ' ' || c = '\t' || c = '\n' || c = '\r' || c = '\x0b' || c = '\x0c'

/-- Model of `input.trim()` (lines 178, 623 of the source). -/
def jsTrim (s : String) : String :=
  String.mk (((s.data.dropWhile isJsSpace).reverse.dropWhile isJsSpace).reverse)

/-- Model of JavaScript `String.prototype.split` with a one-character
separator: `"a,b".split(',') = ["a","b"]`, `"".split(',') = [""]`,
`"a,".split(',') = ["a",""]`. -/
def splitChar (sep : Char) : List Char → List (List Char)
  | [] => [[]]
  | c :: rest =>
    let r := splitChar sep rest
    if c = sep then [] :: r
    else
      match r with
      | [] => [[c]]
      | h :: t => (c :: h) :: t

/-- Boolean test that `p` is an initial segment of `s` (model of
`String.prototype.startsWith`, line 198). -/
def startsWithList : List Char → List Char → Bool
  | [], _ => true
  | _ :: _, [] => false
  | p :: ps, c :: cs => p = c && startsWithList ps cs

/-- Model of `s.startsWith(p)` on strings. -/
def strStartsWith (s p : String) : Bool :=
  startsWithList p.data s.data

/-- The standard base64 alphabet. -/
def base64Chars : List Char :=
  ['A','B','C','D','E','F','G','H','I','J','K','L','M','N','O','P',
   'Q','R','S','T','U','V','W','X','Y','Z',
   'a','b','c','d','e','f','g','h','i','j','k','l','m','n','o','p',
   'q','r','s','t','u','v','w','x','y','z',
   '0','1','2','3','4','5','6','7','8','9','+','/']

/-- Base64 encoding of a byte list, as produced inside the data URL that
`FileReader.readAsDataURL` (lines 161-168) hands back for a file with
those bytes. -/
def base64Encode : List Nat → List Char
  | [] => []
  | [b1] =>
    [base64Chars.getD (b1 / 4) 'A',
     base64Chars.getD (b1 % 4 * 16) 'A', '=', '=']
  | [b1, b2] =>
    [base64Chars.getD (b1 / 4) 'A',
     base64Chars.getD (b1 % 4 * 16 + b2 / 16) 'A',
     base64Chars.getD (b2 % 16 * 4) 'A', '=']
  | b1 :: b2 :: b3 :: rest =>
    [base64Chars.getD (b1 / 4) 'A',
     base64Chars.getD (b1 % 4 * 16 + b2 / 16) 'A',
     base64Chars.getD (b2 % 16 * 4 + b3 / 64) 'A',
     base64Chars.getD (b3 % 64) 'A'] ++ base64Encode rest

/-- Message role: the source's union `'user' | 'ai'`. -/
inductive Role where
  | user
  | ai
deriving DecidableEq, Repr

/-- The source's optional `file` field on a message:
`{ name: string; type: string; url: string }`. -/
structure FileMeta where
  name : String
  type : String
  url : String
deriving DecidableEq, Repr

/-- The source's `Message` interface (lines 8-14).  `id` is modelled as a
natural, `isThinking` (the spec's `pending`) as a plain boolean with the
absent field read as `false`. -/
structure Message where
  id : Nat
  role : Role
  content : String
  file : Option FileMeta
  isThinking : Bool
deriving DecidableEq, Repr

/-- An attachment as handed to `handleSubmit`.  `bytes` are the raw file
bytes; `textContent` records what the external `file.text()` read
resolves to and `docxText` what `mammoth.extractRawText` (lines 170-174)
resolves to, both being opaque browser/library services. -/
structure File where
  name : String
  type : String
  bytes : List Nat
  textContent : String
  docxText : String
deriving DecidableEq, Repr

/-- The response-mode selector, the source's `'search' | 'claude'`
union (line 23). -/
inductive Mode where
  | search
  | claude
deriving DecidableEq, Repr

/-- The inline payload `{ data, mimeType }` built for pdf/image
attachments (lines 201-204). -/
structure FilePayload where
  data : String
  mimeType : String
deriving DecidableEq, Repr

/-- One invocation of a remote response strategy, recording the
arguments the source passes to `puter.ai.chat` (lines 243, 274-278):
the prompt, the model name, whether the web-search tool is requested,
and the inline file payload handed over (the source passes none). -/
structure StrategyCall where
  prompt : String
  model : String
  webSearch : Bool
  filePayload : Option FilePayload
deriving DecidableEq, Repr

/-- The resolution of one strategy invocation, supplied to the embedding
as an explicit argument because the strategy is a remote service:
the text chunks delivered by the stream (each `part?.text || ''`),
and whether the call ends in a raised failure after those chunks. -/
structure Outcome where
  chunks : List String
  failed : Bool
deriving DecidableEq, Repr

/-- The component state handleSubmit reads (lines 17-23): the transcript,
the draft text, the selected attachment, the in-flight flag and the
response mode. -/
structure ChatState where
  messages : List Message
  input : String
  selectedFile : Option File
  isLoading : Bool
  mode : Mode
deriving DecidableEq, Repr

/-- The extension dispatch key:
`selectedFile.name.split('.').pop()?.toLowerCase()` (line 196). -/
def extOf (name : String) : String :=
  String.mk (((splitChar '.' name.data).getLastD []).map Char.toLower)

/-- Modelled from the spec: `URL.createObjectURL` (line 193) is an
opaque browser service returning an object-URL for the original binary;
it is modelled as a deterministic tag of the file name.  No claim
depends on its value. -/
def objectUrlOf (f : File) : String :=
  "blob:" ++ f.name

/-- The data URL `FileReader.readAsDataURL` resolves to for a file
(lines 161-168): header with the MIME type, then the base64 payload. -/
def dataUrlOf (f : File) : String :=
  "data:" ++ f.type ++ ";base64," ++ String.mk (base64Encode f.bytes)

/-- The result of resolving one attachment inside `handleSubmit`:
the message's `file` record, the optional inline payload
`fileDataForApi`, and the `extractedText` accumulator. -/
structure IngestResult where
  fileMeta : Option FileMeta
  fileDataForApi : Option FilePayload
  extractedText : String
deriving DecidableEq, Repr

/-- The attachment dispatch of `handleSubmit` (lines 189-211): pdf or
`image/*` files become a base64 inline payload whose data is the part of
the data URL after the first comma (`base64Url.split(',')[1]`), and the
message's `file.url` is overwritten with the full data URL; `docx` and
`txt` yield extracted text; anything else is recorded for display
only. -/
def resolveAttachment (f : File) : IngestResult :=
  let ext := extOf f.name
  if ext = "pdf" ∨ strStartsWith f.type "image/" = true then
    let base64Url := dataUrlOf f
    let base64Data := String.mk ((splitChar ',' base64Url.data).getD 1 [])
    { fileMeta := some { name := f.name, type := f.type, url := base64Url },
      fileDataForApi := some { data := base64Data, mimeType := f.type },
      extractedText := "" }
  else if ext = "docx" then
    { fileMeta := some { name := f.name, type := f.type, url := objectUrlOf f },
      fileDataForApi := none,
      extractedText := f.docxText }
  else if ext = "txt" then
    { fileMeta := some { name := f.name, type := f.type, url := objectUrlOf f },
      fileDataForApi := none,
      extractedText := f.textContent }
  else
    { fileMeta := some { name := f.name, type := f.type, url := objectUrlOf f },
      fileDataForApi := none,
      extractedText := "" }

/-- The fixed apology sentence of the catch branch (line 315). -/
def apology : String := "Sorry, I encountered an error processing your request."

/-- One chunk-folding step (lines 248-252, 259-263, 281-285, 289-293,
313-317): map over the snapshot taken when the placeholder was appended,
replacing the content of the message with the assistant id by `text` and
clearing its `isThinking` flag, leaving every other message unchanged. -/
def foldChunk (msgs : List Message) (aiId : Nat) (text : String) : List Message :=
  msgs.map (fun m =>
    if m.id = aiId then { m with content := text, isThinking := false } else m)

/-- Running cumulative concatenations: the value of the accumulator
`text` after each iteration of `for await (const part of chat_resp)`
(`text += part?.text || ''`, lines 244, 279). -/
def cumConcats (acc : String) : List String → List String
  | [] => []
  | c :: rest => (acc ++ c) :: cumConcats (acc ++ c) rest

/-- The strategy invocation the source performs for each mode:
`claude` calls `puter.ai.chat(prompt, { model: 'claude-sonnet-4.5',
stream: true })` (line 243); `search` calls `puter.ai.chat(prompt,
{ model: 'openai/gpt-5.2-chat', stream: true, tools: [web_search] })`
(lines 274-278).  Neither passes a file payload. -/
def strategyCallFor : Mode → String → StrategyCall
  | Mode.claude, p =>
    { prompt := p, model := "claude-sonnet-4.5", webSearch := false, filePayload := none }
  | Mode.search, p =>
    { prompt := p, model := "openai/gpt-5.2-chat", webSearch := true, filePayload := none }

/-- The full record of one `handleSubmit` run: the final component
state, each transcript value passed to `setMessages` (in order), each
snapshot passed to `saveToCloud` (in order), the strategy invocations,
and the intermediate values `fileDataForApi` / `extractedText` /
`updatedMessages1` / `updatedMessages2` / the per-chunk states and the
final transcript, exposed for the statements below. -/
structure SubmitTrace where
  rejected : Bool
  final : ChatState
  u1 : List Message
  u2 : List Message
  chunkStates : List (List Message)
  finalMessages : List Message
  observed : List (List Message)
  persisted : List (List Message)
  calls : List StrategyCall
  fileDataForApi : Option FilePayload
  extractedText : String
deriving DecidableEq, Repr

/-- The attachment resolution performed inside `handleSubmit`
(lines 186-211): nothing when no file is selected, otherwise
`resolveAttachment`. -/
def ingestOf (st : ChatState) : IngestResult :=
  match st.selectedFile with
  | none => { fileMeta := none, fileDataForApi := none, extractedText := "" }
  | some f => resolveAttachment f

/-- The user turn built by `handleSubmit` (lines 180-184, 190-194):
content is the draft verbatim and `file` records the resolved
attachment. -/
def userMessageOf (st : ChatState) (now : Nat) : Message :=
  { id := now, role := Role.user, content := st.input,
    file := (ingestOf st).fileMeta, isThinking := false }

/-- `updatedMessages1` (line 213): the transcript with the user turn
appended. -/
def u1Of (st : ChatState) (now : Nat) : List Message :=
  st.messages ++ [userMessageOf st now]

/-- The placeholder assistant turn appended with id `(Date.now()+1)`
and `isThinking: true` (lines 220-223). -/
def placeholderOf (now : Nat) : Message :=
  { id := now + 1, role := Role.ai, content := "", file := none, isThinking := true }

/-- `updatedMessages2` (lines 221-224): the transcript with the
placeholder assistant turn appended after the user turn. -/
def u2Of (st : ChatState) (now : Nat) : List Message :=
  u1Of st now ++ [placeholderOf now]

/-- The composed prompt (lines 228-231): when a document yielded
extracted text, the document content is placed first, then the
delimiter, then the user text (or the fixed fallback query when the
typed text is empty, `prompt || 'Analyze this document.'`). -/
def promptOf (st : ChatState) : String :=
  if (ingestOf st).extractedText ≠ "" then
    "Document Content:\n" ++ (ingestOf st).extractedText ++ "\n\nUser Query: " ++
      (if st.input ≠ "" then st.input else "Analyze this document.")
  else st.input

/-- The final accumulated text written into the assistant turn: the
concatenation of the delivered chunks (lines 244, 258-263, 279,
288-293), or the apology sentence when the strategy raised
(lines 313-317). -/
def finalTextOf (outcome : Outcome) : String :=
  if outcome.failed then apology
  else outcome.chunks.foldl (fun a c => a ++ c) ""

/-- Embedding of `handleSubmit` (lines 176-323).  `now` is the value of
`Date.now()` at entry and `outcome` the resolution of the strategy call.
The guard (line 178) rejects only when the trimmed draft is empty and no
file is selected; it does not consult `isLoading`.  On acceptance: the
user message is built (content is the draft verbatim), the attachment is
resolved, the user turn is appended and persisted (lines 213-215), the
draft cleared, the placeholder assistant message with id `now + 1` and
`isThinking := true` appended (lines 220-225), the prompt composed
(lines 228-231), the strategy invoked, each delivered chunk folded with
the cumulative text (clearing `isThinking`), and finally either the full
text or, on failure, the apology is folded in and persisted
(lines 259-265, 289-295, 313-319). -/
def handleSubmit (st : ChatState) (now : Nat) (outcome : Outcome) : SubmitTrace :=
  if jsTrim st.input = "" ∧ st.selectedFile = none then
    { rejected := true, final := st, u1 := [], u2 := [], chunkStates := [],
      finalMessages := [], observed := [], persisted := [], calls := [],
      fileDataForApi := none, extractedText := "" }
  else
    let updatedMessages1 := u1Of st now
    let updatedMessages2 := u2Of st now
    let chunkStates :=
      (cumConcats "" outcome.chunks).map (foldChunk updatedMessages2 (now + 1))
    let finalMessages := foldChunk updatedMessages2 (now + 1) (finalTextOf outcome)
    { rejected := false,
      final := { st with messages := finalMessages, input := "",
                         selectedFile := none, isLoading := false },
      u1 := updatedMessages1,
      u2 := updatedMessages2,
      chunkStates := chunkStates,
      finalMessages := finalMessages,
      observed := [updatedMessages1, updatedMessages2] ++ chunkStates ++ [finalMessages],
      persisted := [updatedMessages1, finalMessages],
      calls := [strategyCallFor st.mode (promptOf st)],
      fileDataForApi := (ingestOf st).fileDataForApi,
      extractedText := (ingestOf st).extractedText }

/-- The send button's `disabled` expression (line 623):
`(!input.trim() && !selectedFile) || isLoading`. -/
def sendButtonDisabled (st : ChatState) : Bool :=
  (jsTrim st.input = "" && st.selectedFile.isNone) || st.isLoading

/-- Number of messages whose `isThinking` (pending) flag is set. -/
def pendingCount (msgs : List Message) : Nat :=
  msgs.countP (fun m => m.isThinking)

/-- One user-level operation on the Transcript Controller.  A submit
carries the draft contents and mode in force when it is dispatched,
the `Date.now()` value, and the strategy's resolution. -/
inductive Op where
  | submit (now : Nat) (input : String) (file : Option File)
      (mode : Mode) (outcome : Outcome)
  | deleteMsg (id : Nat)
  | newSession
deriving Repr

/-- Trace of a run: final transcript, every transcript passed to
`setMessages`, every snapshot passed to `saveToCloud`. -/
structure RunTrace where
  final : List Message
  observed : List (List Message)
  persisted : List (List Message)
deriving DecidableEq, Repr

/-- One operation applied to a transcript, run to completion before the
next is dispatched.  `deleteMsg` is `handleDeleteMessage` (lines 72-76):
filter out the id, set and persist; `newSession` is `handleNewChat`
(lines 65-70): set and persist the empty list; `submit` dispatches
`handleSubmit` on the state holding the given draft, with nothing in
flight (`isLoading := false`).  This is the non-overlapping dispatch
discipline; the program itself also permits dispatching an operation
while a previous submit is suspended at its strategy await (the Enter
handler, lines 596-601, never consults `isLoading`), a case this
per-operation semantics does not cover — see `ovStB` and the
overlapping-submit theorems for that interleaving. -/
def stepOp (msgs : List Message) : Op → RunTrace
  | Op.submit now input file mode outcome =>
    let tr := handleSubmit
      { messages := msgs, input := input, selectedFile := file,
        isLoading := false, mode := mode } now outcome
    { final := tr.final.messages, observed := tr.observed, persisted := tr.persisted }
  | Op.deleteMsg i =>
    let updated := msgs.filter (fun m => m.id != i)
    { final := updated, observed := [updated], persisted := [updated] }
  | Op.newSession =>
    { final := [], observed := [[]], persisted := [[]] }

/-- A sequence of non-overlapping operations run from a starting
transcript — each dispatched only after the previous one has fully
resolved — concatenating the observed and persisted transcripts of each
step.  Overlapping dispatch, which the program also allows, is treated
separately (see `ovStB`). -/
def runOps (msgs : List Message) : List Op → RunTrace
  | [] => { final := msgs, observed := [], persisted := [] }
  | op :: rest =>
    let t := stepOp msgs op
    let r := runOps t.final rest
    { final := r.final, observed := t.observed ++ r.observed,
      persisted := t.persisted ++ r.persisted }

/-- One part of a `generateContent` request body built by
`generateChatResponse` (`src/src/services/ai.ts`, lines 26-36). -/
inductive GenPart where
  | inlineData (data : String) (mimeType : String)
  | text (t : String)
deriving DecidableEq, Repr

/-- The `parts` array `generateChatResponse` sends: the inline file
payload, when present, followed by the prompt text
(`src/src/services/ai.ts`, lines 26-36). -/
def generateChatResponseParts (prompt : String) (file : Option FilePayload) :
    List GenPart :=
  (match file with
   | some f => [GenPart.inlineData f.data f.mimeType]
   | none => []) ++ [GenPart.text prompt]

/-- Default message used with `List.getLastD`. -/
def msgDefault : Message :=
  { id := 0, role := Role.user, content := "", file := none, isThinking := false }

/-! ## Concrete example inputs used by witnesses and counterexamples -/

/-- A submit, a delete and a new session, run from the empty transcript. -/
def c1Ops : List Op :=
  [Op.submit 1 "hello" none Mode.claude { chunks := ["hi ", "there"], failed := false },
   Op.deleteMsg 1, Op.newSession]

/-- Two submits (the second one failing) and a delete. -/
def c9Ops : List Op :=
  [Op.submit 3 "ping" none Mode.search { chunks := ["pong"], failed := false },
   Op.submit 7 "again" none Mode.search { chunks := ["x"], failed := true },
   Op.deleteMsg 4]

/-- Draft "hello" in claude mode, nothing in flight. -/
def c2St : ChatState :=
  { messages := [], input := "hello", selectedFile := none,
    isLoading := false, mode := Mode.claude }

/-- Draft "hi" dispatched while a submission is in flight. -/
def c3St : ChatState :=
  { messages := [], input := "hi", selectedFile := none,
    isLoading := true, mode := Mode.search }

/-- Draft "ask" in search mode. -/
def c4St : ChatState :=
  { messages := [], input := "ask", selectedFile := none,
    isLoading := false, mode := Mode.search }

/-- A png attachment holding the four PNG magic bytes. -/
def pngFile : File :=
  { name := "photo.png", type := "image/png", bytes := [137, 80, 78, 71],
    textContent := "", docxText := "" }

/-- Submitting a question with the png attachment in search mode. -/
def c6St : ChatState :=
  { messages := [], input := "What is this?", selectedFile := some pngFile,
    isLoading := false, mode := Mode.search }

/-- A txt attachment whose `file.text()` read yields "Budget: $500". -/
def notesFile : File :=
  { name := "notes.txt", type := "text/plain", bytes := [],
    textContent := "Budget: $500", docxText := "" }

/-- Submitting "Summarize" with the txt attachment. -/
def c7St : ChatState :=
  { messages := [], input := "Summarize", selectedFile := some notesFile,
    isLoading := false, mode := Mode.search }

/-- Whitespace-only draft and no attachment. -/
def c8St : ChatState :=
  { messages := [], input := "   ", selectedFile := none,
    isLoading := false, mode := Mode.search }

/-- Empty draft with the txt attachment. -/
def c10St : ChatState :=
  { messages := [], input := "", selectedFile := some notesFile,
    isLoading := false, mode := Mode.claude }

/-- Submit A of the overlapping-submit interleaving: draft "one"
dispatched from the empty transcript with nothing in flight. -/
def ovStA : ChatState :=
  { messages := [], input := "one", selectedFile := none,
    isLoading := false, mode := Mode.claude }

/-- Submit B of the overlapping-submit interleaving, dispatched through
the textarea Enter handler (lines 596-601, which calls handleSubmit
without consulting `isLoading`) while submit A is suspended at its
strategy await (line 243).  With no attachment, A's dispatch segment
(lines 176-225) runs synchronously up to that await: its last
`setMessages` value is `updatedMessages2` = `u2Of ovStA 1`, so that is
the committed transcript B's closure reads, and `isLoading` is still
true.  B's own `updatedMessages1`/`updatedMessages2` (lines 213, 221-224)
are then built on top of it while A's placeholder still has
`isThinking = true`. -/
def ovStB : ChatState :=
  { messages := u2Of ovStA 1, input := "two", selectedFile := none,
    isLoading := true, mode := Mode.claude }

/-- Three finalized messages with distinct ids. -/
def mA : Message :=
  { id := 1, role := Role.user, content := "a", file := none, isThinking := false }

/-- See `mA`. -/
def mB : Message :=
  { id := 2, role := Role.ai, content := "b", file := none, isThinking := false }

/-- See `mA`. -/
def mC : Message :=
  { id := 3, role := Role.user, content := "c", file := none, isThinking := false }

/-! ## Helper lemmas -/

lemma length_foldChunk (l : List Message) (aiId : Nat) (t : String) :
    (foldChunk l aiId t).length = l.length := by
  unfold foldChunk
  rw [List.length_map]

lemma handleSubmit_accepted (st : ChatState) (now : Nat) (o : Outcome)
    (hg : ¬(jsTrim st.input = "" ∧ st.selectedFile = none)) :
    handleSubmit st now o =
      { rejected := false,
        final := { st with
                   messages := foldChunk (u2Of st now) (now + 1) (finalTextOf o),
                   input := "", selectedFile := none, isLoading := false },
        u1 := u1Of st now,
        u2 := u2Of st now,
        chunkStates := (cumConcats "" o.chunks).map (foldChunk (u2Of st now) (now + 1)),
        finalMessages := foldChunk (u2Of st now) (now + 1) (finalTextOf o),
        observed := [u1Of st now, u2Of st now] ++
          (cumConcats "" o.chunks).map (foldChunk (u2Of st now) (now + 1)) ++
          [foldChunk (u2Of st now) (now + 1) (finalTextOf o)],
        persisted := [u1Of st now, foldChunk (u2Of st now) (now + 1) (finalTextOf o)],
        calls := [strategyCallFor st.mode (promptOf st)],
        fileDataForApi := (ingestOf st).fileDataForApi,
        extractedText := (ingestOf st).extractedText } := by
  rw [handleSubmit, if_neg hg]

lemma foldChunk_count_aux (m : Message) (aiId : Nat) (t : String) :
    (if ((if m.id = aiId then { m with content := t, isThinking := false }
          else m) : Message).isThinking = true then 1 else 0) ≤
      (if m.isThinking = true then 1 else 0) := by
  by_cases h : m.id = aiId <;> simp [h]

lemma foldChunk_pendingCount_le (l : List Message) (aiId : Nat) (t : String) :
    pendingCount (foldChunk l aiId t) ≤ pendingCount l := by
  unfold pendingCount foldChunk
  induction l with
  | nil => simp
  | cons a l ih =>
    rw [List.map_cons, List.countP_cons, List.countP_cons]
    exact Nat.add_le_add ih (foldChunk_count_aux a aiId t)

lemma foldChunk_allResolved {l : List Message} {aiId : Nat} {t : String}
    (h : ∀ m ∈ l, m.isThinking = false ∨ m.id = aiId) :
    ∀ m ∈ foldChunk l aiId t, m.isThinking = false := by
  intro m hm
  unfold foldChunk at hm
  obtain ⟨x, hx, rfl⟩ := List.mem_map.mp hm
  by_cases hid : x.id = aiId
  · simp [hid]
  · simp only [hid, if_false]
    rcases h x hx with h1 | h1
    · exact h1
    · exact absurd h1 hid

lemma pendingCount_eq_zero {l : List Message}
    (h : ∀ m ∈ l, m.isThinking = false) : pendingCount l = 0 := by
  unfold pendingCount
  rw [List.countP_eq_zero]
  intro m hm
  simp [h m hm]

lemma u1Of_allResolved (st : ChatState) (now : Nat)
    (h : ∀ m ∈ st.messages, m.isThinking = false) :
    ∀ m ∈ u1Of st now, m.isThinking = false := by
  intro m hm
  rcases List.mem_append.mp hm with h1 | h1
  · exact h m h1
  · rw [List.mem_singleton.mp h1]
    rfl

lemma u2Of_flag_cases (st : ChatState) (now : Nat)
    (h : ∀ m ∈ st.messages, m.isThinking = false) :
    ∀ m ∈ u2Of st now, m.isThinking = false ∨ m.id = now + 1 := by
  intro m hm
  rcases List.mem_append.mp hm with h1 | h1
  · exact Or.inl (u1Of_allResolved st now h m h1)
  · rw [List.mem_singleton.mp h1]
    exact Or.inr rfl

lemma u2Of_pendingCount (st : ChatState) (now : Nat)
    (h : ∀ m ∈ st.messages, m.isThinking = false) :
    pendingCount (u2Of st now) = 1 := by
  unfold u2Of pendingCount
  rw [List.countP_append]
  have h0 : pendingCount (u1Of st now) = 0 :=
    pendingCount_eq_zero (u1Of_allResolved st now h)
  unfold pendingCount at h0
  rw [h0]
  rfl

lemma foldChunk_u2_getLastD (st : ChatState) (now : Nat) (t : String) :
    (foldChunk (u2Of st now) (now + 1) t).getLastD msgDefault =
      { id := now + 1, role := Role.ai, content := t,
        file := none, isThinking := false } := by
  unfold u2Of foldChunk
  rw [List.map_append]
  simp [placeholderOf, List.getLastD_concat]

lemma cumConcats_length (l : List String) (acc : String) :
    (cumConcats acc l).length = l.length := by
  induction l generalizing acc with
  | nil => rfl
  | cons c rest ih => simp [cumConcats, ih]

lemma cumConcats_getElem (l : List String) (acc : String) (i : Nat)
    (h : i < (cumConcats acc l).length) :
    (cumConcats acc l)[i] =
      (l.take (i + 1)).foldl (fun a c => a ++ c) acc := by
  induction l generalizing acc i with
  | nil => simp [cumConcats] at h
  | cons c rest ih =>
    cases i with
    | zero => simp [cumConcats]
    | succ j =>
      simp only [cumConcats, List.getElem_cons_succ]
      rw [ih]
      simp [List.foldl_cons]

lemma handleSubmit_inv (st : ChatState) (now : Nat) (o : Outcome)
    (h : ∀ m ∈ st.messages, m.isThinking = false) :
    (∀ m ∈ (handleSubmit st now o).final.messages, m.isThinking = false) ∧
    (∀ s ∈ (handleSubmit st now o).observed, pendingCount s ≤ 1) ∧
    (∀ s ∈ (handleSubmit st now o).persisted, ∀ m ∈ s, m.isThinking = false) := by
  by_cases hg : jsTrim st.input = "" ∧ st.selectedFile = none
  · rw [handleSubmit, if_pos hg]
    exact ⟨h, by intro s hs; simp at hs, by intro s hs; simp at hs⟩
  · rw [handleSubmit_accepted st now o hg]
    have hu1 := u1Of_allResolved st now h
    have hu2 := u2Of_pendingCount st now h
    have hfin : ∀ m ∈ foldChunk (u2Of st now) (now + 1) (finalTextOf o),
        m.isThinking = false :=
      foldChunk_allResolved (u2Of_flag_cases st now h)
    refine ⟨hfin, ?_, ?_⟩
    · intro s hs
      rcases List.mem_append.mp hs with hs1 | hs1
      · rcases List.mem_append.mp hs1 with hs2 | hs2
        · rcases List.mem_cons.mp hs2 with rfl | hs3
          · rw [pendingCount_eq_zero hu1]
            omega
          · rw [List.mem_singleton.mp hs3, hu2]
        · obtain ⟨t, _, rfl⟩ := List.mem_map.mp hs2
          calc pendingCount (foldChunk (u2Of st now) (now + 1) t)
              ≤ pendingCount (u2Of st now) := foldChunk_pendingCount_le _ _ _
            _ = 1 := hu2
      · rw [List.mem_singleton.mp hs1, pendingCount_eq_zero hfin]
        omega
    · intro s hs
      simp only [List.mem_cons, List.mem_singleton, List.not_mem_nil, or_false] at hs
      rcases hs with rfl | rfl
      · exact hu1
      · exact hfin

lemma stepOp_inv (msgs : List Message) (op : Op)
    (h : ∀ m ∈ msgs, m.isThinking = false) :
    (∀ m ∈ (stepOp msgs op).final, m.isThinking = false) ∧
    (∀ s ∈ (stepOp msgs op).observed, pendingCount s ≤ 1) ∧
    (∀ s ∈ (stepOp msgs op).persisted, ∀ m ∈ s, m.isThinking = false) := by
  cases op with
  | submit now input file mode outcome =>
    exact handleSubmit_inv
      { messages := msgs, input := input, selectedFile := file,
        isLoading := false, mode := mode } now outcome h
  | deleteMsg i =>
    have hf : ∀ m ∈ msgs.filter (fun m => m.id != i), m.isThinking = false :=
      fun m hm => h m (List.mem_of_mem_filter hm)
    refine ⟨hf, ?_, ?_⟩
    · intro s hs
      rw [List.mem_singleton.mp hs, pendingCount_eq_zero hf]
      omega
    · intro s hs
      rw [List.mem_singleton.mp hs]
      exact hf
  | newSession =>
    refine ⟨by simp [stepOp], ?_, ?_⟩
    · intro s hs
      rw [List.mem_singleton.mp hs]
      simp [pendingCount]
    · intro s hs
      rw [List.mem_singleton.mp hs]
      simp

lemma runOps_inv (ops : List Op) (msgs : List Message)
    (h : ∀ m ∈ msgs, m.isThinking = false) :
    (∀ m ∈ (runOps msgs ops).final, m.isThinking = false) ∧
    (∀ s ∈ (runOps msgs ops).observed, pendingCount s ≤ 1) ∧
    (∀ s ∈ (runOps msgs ops).persisted, ∀ m ∈ s, m.isThinking = false) := by
  induction ops generalizing msgs with
  | nil =>
    exact ⟨h, by intro s hs; simp [runOps] at hs, by intro s hs; simp [runOps] at hs⟩
  | cons op rest ih =>
    obtain ⟨h1, h2, h3⟩ := stepOp_inv msgs op h
    obtain ⟨g1, g2, g3⟩ := ih (stepOp msgs op).final h1
    refine ⟨g1, ?_, ?_⟩
    · intro s hs
      rcases List.mem_append.mp hs with hs | hs
      · exact h2 s hs
      · exact g2 s hs
    · intro s hs
      rcases List.mem_append.mp hs with hs | hs
      · exact h3 s hs
      · exact g3 s hs

/-! ## Claim theorems -/

/-- C1 counterexample: the claim asserts at most one pending message at
any observed point for ANY sequence of submit/delete/newSession
operations, but submissions can overlap: submit A (draft "one", empty
transcript) suspends at its strategy await with its placeholder
(id 2, `isThinking = true`) in the committed transcript — `u2Of ovStA 1`
is the last `setMessages` value of its dispatch segment, and it is among
A's observed states.  Submit B (draft "two"), dispatched there through
the Enter handler (which bypasses the disabled send button and the
absent `isLoading` check, per the C3 correction), is accepted, and its
`updatedMessages2` — passed to `setMessages` at line 225 — contains BOTH
placeholders with `isThinking = true`: an observed transcript with two
pending messages, falsifying the claim as stated. -/
theorem c1_overlap_two_pending :
    u2Of ovStA 1 ∈
      (handleSubmit ovStA 1 { chunks := ["later"], failed := false }).observed ∧
    pendingCount (u2Of ovStA 1) = 1 ∧
    ovStB.messages = u2Of ovStA 1 ∧
    ovStB.isLoading = true ∧
    (handleSubmit ovStB 3 { chunks := ["reply"], failed := false }).rejected = false ∧
    (handleSubmit ovStB 3 { chunks := ["reply"], failed := false }).u2 ∈
      (handleSubmit ovStB 3 { chunks := ["reply"], failed := false }).observed ∧
    pendingCount (handleSubmit ovStB 3 { chunks := ["reply"], failed := false }).u2
      = 2 := by
  decide

/-- C1 (amended): when operations do not overlap — each submit's stream
resolves before the next operation is dispatched — every observed
transcript of any sequence of submit, deleteMessage and newSession
operations run from a transcript with no pending message (the initial
one and every value passed to `setMessages` during the run) holds at
most one message with `isThinking = true` (the spec's `pending`).  A
submit dispatched while a previous one is in flight escapes this bound
(see `c1_overlap_two_pending`). -/
theorem c1_pending_at_most_one (msgs0 : List Message) (ops : List Op)
    (h : ∀ m ∈ msgs0, m.isThinking = false) :
    ∀ s ∈ msgs0 :: (runOps msgs0 ops).observed, pendingCount s ≤ 1 := by
  intro s hs
  rcases List.mem_cons.mp hs with rfl | hs
  · rw [pendingCount_eq_zero h]
    omega
  · exact (runOps_inv ops msgs0 h).2.1 s hs

/-- Witness for C1: the invariant evaluated on a concrete run (a submit
streaming two chunks, a delete, a new session) from the empty
transcript. -/
theorem c1_pending_at_most_one_witness :
    (∀ m ∈ ([] : List Message), m.isThinking = false) ∧
    (∀ s ∈ ([] : List Message) :: (runOps [] c1Ops).observed, pendingCount s ≤ 1) :=
  ⟨by decide, c1_pending_at_most_one [] c1Ops (by decide)⟩

/-- C9 counterexample: the claim asserts no persisted snapshot ever
contains a pending message, but in the overlapping interleaving of
`ovStB` (submit B dispatched while submit A is suspended at its strategy
await with its placeholder, id 2, still `isThinking = true` in the
committed transcript), B's dispatch segment persists its
`updatedMessages1` (`saveToCloud(updatedMessages1)`, line 215) — and
that snapshot, the first persist of B's run, still contains A's pending
placeholder: a persisted snapshot with a `pending = true` message,
falsifying the claim as stated. -/
theorem c9_overlap_pending_persisted :
    ovStB.messages = u2Of ovStA 1 ∧
    pendingCount (u2Of ovStA 1) = 1 ∧
    (handleSubmit ovStB 3 { chunks := ["reply"], failed := false }).persisted.getD 0 []
      = u1Of ovStB 3 ∧
    ({ id := 2, role := Role.ai, content := "", file := none, isThinking := true }
      : Message) ∈ u1Of ovStB 3 ∧
    pendingCount (u1Of ovStB 3) = 1 := by
  decide

/-- C9 (amended): when operations do not overlap — each submit's stream
resolves before the next operation is dispatched — every snapshot passed
to `saveToCloud` during any sequence of operations run from a transcript
with no pending message contains no message with `isThinking = true`:
no `saveToCloud` call occurs inside the streaming loop, and within a
single run the post-placeholder persist happens only after the final or
the catch fold has cleared the flag.  A submit dispatched while a
previous one is in flight persists its user-turn snapshot with the
earlier placeholder still pending (see
`c9_overlap_pending_persisted`). -/
theorem c9_persisted_never_pending (msgs0 : List Message) (ops : List Op)
    (h : ∀ m ∈ msgs0, m.isThinking = false) :
    ∀ s ∈ (runOps msgs0 ops).persisted, ∀ m ∈ s, m.isThinking = false :=
  fun s hs => (runOps_inv ops msgs0 h).2.2 s hs

/-- Witness for C9 on a concrete run with a successful submit, a failing
submit and a delete. -/
theorem c9_persisted_never_pending_witness :
    (∀ m ∈ ([] : List Message), m.isThinking = false) ∧
    (∀ s ∈ (runOps [] c9Ops).persisted, ∀ m ∈ s, m.isThinking = false) :=
  ⟨by decide, c9_persisted_never_pending [] c9Ops (by decide)⟩

/-- C8: submitting with an empty or whitespace-only draft and no
attachment is a no-op — the state (transcript included) is returned
unchanged, nothing is observed or persisted, and no strategy call is
made. -/
theorem c8_empty_submit_noop (st : ChatState) (now : Nat) (o : Outcome)
    (h1 : jsTrim st.input = "") (h2 : st.selectedFile = none) :
    handleSubmit st now o =
      { rejected := true, final := st, u1 := [], u2 := [], chunkStates := [],
        finalMessages := [], observed := [], persisted := [], calls := [],
        fileDataForApi := none, extractedText := "" } := by
  rw [handleSubmit, if_pos ⟨h1, h2⟩]

/-- Witness for C8 with a whitespace-only draft. -/
theorem c8_empty_submit_noop_witness :
    jsTrim c8St.input = "" ∧ c8St.selectedFile = none ∧
    handleSubmit c8St 3 { chunks := [], failed := false } =
      { rejected := true, final := c8St, u1 := [], u2 := [], chunkStates := [],
        finalMessages := [], observed := [], persisted := [], calls := [],
        fileDataForApi := none, extractedText := "" } :=
  ⟨by decide, rfl,
   c8_empty_submit_noop c8St 3 { chunks := [], failed := false } (by decide) rfl⟩

/-- C5: when the transcript contains exactly one message with the given
id, deleteMessage removes exactly that message, leaves every other
message and their relative order unchanged, and persists exactly the
updated transcript. -/
theorem c5_delete_exact (pre post : List Message) (m : Message)
    (hpre : ∀ x ∈ pre, x.id ≠ m.id) (hpost : ∀ x ∈ post, x.id ≠ m.id) :
    (stepOp (pre ++ m :: post) (Op.deleteMsg m.id)).final = pre ++ post ∧
    (stepOp (pre ++ m :: post) (Op.deleteMsg m.id)).observed = [pre ++ post] ∧
    (stepOp (pre ++ m :: post) (Op.deleteMsg m.id)).persisted = [pre ++ post] := by
  have h1 : pre.filter (fun x => x.id != m.id) = pre :=
    List.filter_eq_self.mpr (fun x hx => bne_iff_ne.mpr (hpre x hx))
  have h2 : post.filter (fun x => x.id != m.id) = post :=
    List.filter_eq_self.mpr (fun x hx => bne_iff_ne.mpr (hpost x hx))
  have hfil : (pre ++ m :: post).filter (fun x => x.id != m.id) = pre ++ post := by
    rw [List.filter_append, List.filter_cons]
    rw [bne_self_eq_false m.id]
    simp only [if_false, h1, h2, Bool.false_eq_true]
  exact ⟨by simp [stepOp, hfil], by simp [stepOp, hfil], by simp [stepOp, hfil]⟩

/-- Witness for C5: deleting the middle message of a three-message
transcript. -/
theorem c5_delete_exact_witness :
    (∀ x ∈ [mA], x.id ≠ mB.id) ∧ (∀ x ∈ [mC], x.id ≠ mB.id) ∧
    ((stepOp ([mA] ++ mB :: [mC]) (Op.deleteMsg mB.id)).final = [mA] ++ [mC] ∧
     (stepOp ([mA] ++ mB :: [mC]) (Op.deleteMsg mB.id)).observed = [[mA] ++ [mC]] ∧
     (stepOp ([mA] ++ mB :: [mC]) (Op.deleteMsg mB.id)).persisted = [[mA] ++ [mC]]) :=
  ⟨by decide, by decide, c5_delete_exact [mA] [mC] mB (by decide) (by decide)⟩

/-- C2 counterexample: the claim asserts the pending flag remains true
while earlier chunks are being folded and becomes false only after the
terminal chunk.  On a stream of two chunks, the transcript observed
after folding the first (non-terminal) chunk already carries the
assistant message with `isThinking = false` (every fold writes
`isThinking: false`, lines 248-252 of the source), so the claim's
instance with N = 2 and i = 1 is false. -/
theorem c2_pending_cleared_on_first_chunk :
    (handleSubmit c2St 10 { chunks := ["a", "b"], failed := false }).chunkStates.length = 2 ∧
    ((handleSubmit c2St 10 { chunks := ["a", "b"], failed := false }).chunkStates.getD 0
        []).getLastD msgDefault =
      { id := 11, role := Role.ai, content := "a", file := none, isThinking := false } ∧
    ¬(((handleSubmit c2St 10 { chunks := ["a", "b"], failed := false }).chunkStates.getD 0
        []).getLastD msgDefault).isThinking = true := by
  decide

/-- C2 (amended): folding N streamed chunks into the pending assistant
message yields final content equal to the concatenation c1+...+cN, but
the pending flag is cleared on the first folded chunk rather than only
on the terminal one: after each folded chunk the assistant message
carries the cumulative concatenation with `isThinking = false`, and it
is false after the terminal chunk. -/
theorem c2_stream_fold (st : ChatState) (now : Nat) (chunks : List String)
    (hacc : ¬(jsTrim st.input = "" ∧ st.selectedFile = none)) :
    ((handleSubmit st now { chunks := chunks, failed := false }).finalMessages.getLastD
        msgDefault =
      { id := now + 1, role := Role.ai,
        content := chunks.foldl (fun a c => a ++ c) "",
        file := none, isThinking := false }) ∧
    (handleSubmit st now { chunks := chunks, failed := false }).chunkStates.length =
      chunks.length ∧
    (∀ i (h : i < (handleSubmit st now { chunks := chunks, failed := false
        }).chunkStates.length),
      ((handleSubmit st now { chunks := chunks, failed := false }).chunkStates.get
          ⟨i, h⟩).getLastD msgDefault =
        { id := now + 1, role := Role.ai,
          content := (chunks.take (i + 1)).foldl (fun a c => a ++ c) "",
          file := none, isThinking := false }) := by
  rw [handleSubmit_accepted st now _ hacc]
  refine ⟨foldChunk_u2_getLastD st now _, ?_, ?_⟩
  · show ((cumConcats "" chunks).map (foldChunk (u2Of st now) (now + 1))).length = _
    rw [List.length_map, cumConcats_length]
  · intro i h
    have h2 : i < (cumConcats "" chunks).length := by
      simpa using h
    show ((List.map (foldChunk (u2Of st now) (now + 1)) (cumConcats "" chunks)).get
        ⟨i, by simpa using h2⟩).getLastD msgDefault = _
    rw [List.get_eq_getElem, List.getElem_map, cumConcats_getElem]
    exact foldChunk_u2_getLastD st now _

/-- Witness for C2 (amended) on the stream ["a", "b"]. -/
theorem c2_stream_fold_witness :
    ¬(jsTrim c2St.input = "" ∧ c2St.selectedFile = none) ∧
    (((handleSubmit c2St 10 { chunks := ["a", "b"], failed := false
        }).finalMessages.getLastD msgDefault =
      { id := 11, role := Role.ai,
        content := ["a", "b"].foldl (fun a c => a ++ c) "",
        file := none, isThinking := false }) ∧
    (handleSubmit c2St 10 { chunks := ["a", "b"], failed := false
        }).chunkStates.length = (["a", "b"] : List String).length ∧
    (∀ i (h : i < (handleSubmit c2St 10 { chunks := ["a", "b"], failed := false
        }).chunkStates.length),
      ((handleSubmit c2St 10 { chunks := ["a", "b"], failed := false }).chunkStates.get
          ⟨i, h⟩).getLastD msgDefault =
        { id := 11, role := Role.ai,
          content := ((["a", "b"] : List String).take (i + 1)).foldl
            (fun a c => a ++ c) "",
          file := none, isThinking := false })) :=
  ⟨by decide, c2_stream_fold c2St 10 ["a", "b"] (by decide)⟩

/-- C3 counterexample: the claim asserts a submit while a previous
submission is in flight is rejected as a no-op.  At a state with
`isLoading = true` and a non-empty draft, `handleSubmit` (which never
consults `isLoading`, line 178) appends the user turn and the
placeholder and makes a strategy call, so it is not a no-op. -/
theorem c3_inflight_submit_not_noop :
    c3St.isLoading = true ∧
    ¬((handleSubmit c3St 5 { chunks := ["ok"], failed := false }).final.messages =
        c3St.messages ∧
      (handleSubmit c3St 5 { chunks := ["ok"], failed := false }).calls = []) ∧
    (handleSubmit c3St 5 { chunks := ["ok"], failed := false }).final.messages.length = 2 ∧
    (handleSubmit c3St 5 { chunks := ["ok"], failed := false }).calls.length = 1 := by
  decide

/-- C3 (amended): only the send button's disabled predicate (line 623)
blocks submission while a previous one is in flight; handleSubmit
itself does not consult the in-flight flag, so a submit dispatched
while in flight (e.g. through the textarea Enter handler, lines
596-601, which calls handleSubmit directly) is rejected only by the
empty-draft guard and otherwise appends the two messages and invokes
exactly one strategy call. -/
theorem c3_inflight_guard (st : ChatState) (now : Nat) (o : Outcome)
    (hload : st.isLoading = true) :
    sendButtonDisabled st = true ∧
    (¬(jsTrim st.input = "" ∧ st.selectedFile = none) →
      (handleSubmit st now o).final.messages.length = st.messages.length + 2 ∧
      (handleSubmit st now o).calls.length = 1) := by
  constructor
  · unfold sendButtonDisabled
    rw [hload, Bool.or_true]
  · intro hg
    rw [handleSubmit_accepted st now o hg]
    constructor
    · show (foldChunk (u2Of st now) (now + 1) (finalTextOf o)).length =
        st.messages.length + 2
      rw [length_foldChunk]
      unfold u2Of u1Of
      simp
    · rfl

/-- Witness for C3 (amended) at a concrete in-flight state. -/
theorem c3_inflight_guard_witness :
    c3St.isLoading = true ∧
    (sendButtonDisabled c3St = true ∧
    (¬(jsTrim c3St.input = "" ∧ c3St.selectedFile = none) →
      (handleSubmit c3St 5 { chunks := ["ok"], failed := false
        }).final.messages.length = c3St.messages.length + 2 ∧
      (handleSubmit c3St 5 { chunks := ["ok"], failed := false }).calls.length = 1)) :=
  ⟨rfl, c3_inflight_guard c3St 5 { chunks := ["ok"], failed := false } rfl⟩

/-- C4: when the strategy raises after delivering any number of chunks,
the assistant message's content is replaced by the fixed apology
sentence with its pending flag cleared, and the transcript is persisted
exactly once more after the failure: the full persist list of the run
is the pre-invocation user-turn snapshot followed by the single
post-failure apology snapshot. -/
theorem c4_failure_apology (st : ChatState) (now : Nat) (chunks : List String)
    (hacc : ¬(jsTrim st.input = "" ∧ st.selectedFile = none)) :
    ((handleSubmit st now { chunks := chunks, failed := true }).finalMessages.getLastD
        msgDefault =
      { id := now + 1, role := Role.ai, content := apology,
        file := none, isThinking := false }) ∧
    (handleSubmit st now { chunks := chunks, failed := true }).persisted =
      [(handleSubmit st now { chunks := chunks, failed := true }).u1,
       (handleSubmit st now { chunks := chunks, failed := true }).finalMessages] := by
  rw [handleSubmit_accepted st now _ hacc]
  exact ⟨foldChunk_u2_getLastD st now _, rfl⟩

/-- Witness for C4: a failing submit after one delivered chunk. -/
theorem c4_failure_apology_witness :
    ¬(jsTrim c4St.input = "" ∧ c4St.selectedFile = none) ∧
    (((handleSubmit c4St 9 { chunks := ["par"], failed := true
        }).finalMessages.getLastD msgDefault =
      { id := 10, role := Role.ai, content := apology,
        file := none, isThinking := false }) ∧
    (handleSubmit c4St 9 { chunks := ["par"], failed := true }).persisted =
      [(handleSubmit c4St 9 { chunks := ["par"], failed := true }).u1,
       (handleSubmit c4St 9 { chunks := ["par"], failed := true }).finalMessages]) :=
  ⟨by decide, c4_failure_apology c4St 9 ["par"] (by decide)⟩

/-- C6: evaluation at the failing input.  Ingesting a png attachment
produces the inline payload (raw base64 of the bytes plus the MIME
type) and records the full data URL as the attachment's url, and
`generateChatResponse` would transmit that payload as an `inlineData`
part before the prompt — but the strategy calls the code actually makes
in both reachable modes (`search` and `claude`) carry no file payload
(`puter.ai.chat` is invoked with the prompt alone, lines 243 and
274-278), so the payload is never transmitted to the model. -/
theorem c6_attachment_payload_dropped :
    (handleSubmit c6St 20 { chunks := ["resp"], failed := false }).fileDataForApi =
      some { data := "iVBORw==", mimeType := "image/png" } ∧
    ((handleSubmit c6St 20 { chunks := ["resp"], failed := false }).u1.getLastD
        msgDefault).file =
      some { name := "photo.png", type := "image/png",
             url := "data:image/png;base64,iVBORw==" } ∧
    (handleSubmit c6St 20 { chunks := ["resp"], failed := false }).calls =
      [{ prompt := "What is this?", model := "openai/gpt-5.2-chat",
         webSearch := true, filePayload := none }] ∧
    (handleSubmit { c6St with mode := Mode.claude } 20
        { chunks := ["resp"], failed := false }).calls =
      [{ prompt := "What is this?", model := "claude-sonnet-4.5",
         webSearch := false, filePayload := none }] ∧
    generateChatResponseParts "What is this?"
        (some { data := "iVBORw==", mimeType := "image/png" }) =
      [GenPart.inlineData "iVBORw==" "image/png", GenPart.text "What is this?"] := by
  decide

/-- C7: when the selected attachment is a txt or docx file (and not an
image by MIME) whose extraction yields non-empty text, and the typed
draft is non-empty, the single strategy call receives the prompt built
as the document content first, then the delimiter
"\n\nUser Query: ", then the typed text; the extracted text is the
file's text content for txt and its extracted paragraph text for
docx. -/
theorem c7_doc_prompt_composition (st : ChatState) (f : File) (now : Nat)
    (o : Outcome)
    (hf : st.selectedFile = some f)
    (_hext : extOf f.name = "txt" ∨ extOf f.name = "docx")
    (hmime : strStartsWith f.type "image/" = false)
    (hdoc : (resolveAttachment f).extractedText ≠ "")
    (hinput : st.input ≠ "") :
    (handleSubmit st now o).calls =
      [strategyCallFor st.mode
        ("Document Content:\n" ++ (resolveAttachment f).extractedText ++
         "\n\nUser Query: " ++ st.input)] ∧
    (extOf f.name = "txt" → (resolveAttachment f).extractedText = f.textContent) ∧
    (extOf f.name = "docx" → (resolveAttachment f).extractedText = f.docxText) := by
  have hg : ¬(jsTrim st.input = "" ∧ st.selectedFile = none) := by
    rw [hf]
    rintro ⟨-, hcon⟩
    exact Option.noConfusion hcon
  have hing : ingestOf st = resolveAttachment f := by
    unfold ingestOf
    rw [hf]
  refine ⟨?_, ?_, ?_⟩
  · rw [handleSubmit_accepted st now o hg]
    show [strategyCallFor st.mode (promptOf st)] = _
    unfold promptOf
    rw [hing, if_pos hdoc, if_pos hinput]
  · intro ht
    have hc1 : ¬(("txt" : String) = "pdf" ∨ strStartsWith f.type "image/" = true) := by
      rintro (hcon | hcon)
      · exact absurd hcon (by decide)
      · rw [hmime] at hcon
        exact Bool.noConfusion hcon
    simp only [resolveAttachment, ht]
    rw [if_neg hc1]
    simp
  · intro ht
    have hc1 : ¬(("docx" : String) = "pdf" ∨ strStartsWith f.type "image/" = true) := by
      rintro (hcon | hcon)
      · exact absurd hcon (by decide)
      · rw [hmime] at hcon
        exact Bool.noConfusion hcon
    simp only [resolveAttachment, ht]
    rw [if_neg hc1]
    simp

/-- Witness for C7: submitting "Summarize" with notes.txt containing
"Budget: $500". -/
theorem c7_doc_prompt_composition_witness :
    c7St.selectedFile = some notesFile ∧
    (extOf notesFile.name = "txt" ∨ extOf notesFile.name = "docx") ∧
    strStartsWith notesFile.type "image/" = false ∧
    (resolveAttachment notesFile).extractedText ≠ "" ∧
    c7St.input ≠ "" ∧
    ((handleSubmit c7St 30 { chunks := ["done"], failed := false }).calls =
      [strategyCallFor c7St.mode
        ("Document Content:\n" ++ (resolveAttachment notesFile).extractedText ++
         "\n\nUser Query: " ++ c7St.input)] ∧
    (extOf notesFile.name = "txt" →
      (resolveAttachment notesFile).extractedText = notesFile.textContent) ∧
    (extOf notesFile.name = "docx" →
      (resolveAttachment notesFile).extractedText = notesFile.docxText)) :=
  ⟨rfl, by decide, by decide, by decide, by decide,
   c7_doc_prompt_composition c7St notesFile 30 { chunks := ["done"], failed := false }
     rfl (by decide) (by decide) (by decide) (by decide)⟩

/-- C10: when the typed draft is empty and the attachment resolution
yields non-empty extracted text, the composed prompt substitutes the
fixed query "Analyze this document." after the document content instead
of an empty instruction. -/
theorem c10_empty_input_fallback (st : ChatState) (f : File) (now : Nat)
    (o : Outcome)
    (hf : st.selectedFile = some f)
    (hdoc : (resolveAttachment f).extractedText ≠ "")
    (hinput : st.input = "") :
    (handleSubmit st now o).calls =
      [strategyCallFor st.mode
        ("Document Content:\n" ++ (resolveAttachment f).extractedText ++
         "\n\nUser Query: " ++ "Analyze this document.")] := by
  have hg : ¬(jsTrim st.input = "" ∧ st.selectedFile = none) := by
    rw [hf]
    rintro ⟨-, hcon⟩
    exact Option.noConfusion hcon
  have hing : ingestOf st = resolveAttachment f := by
    unfold ingestOf
    rw [hf]
  rw [handleSubmit_accepted st now o hg]
  show [strategyCallFor st.mode (promptOf st)] = _
  unfold promptOf
  rw [hing, if_pos hdoc, hinput, if_neg (fun hcon => hcon rfl)]

/-- Witness for C10: empty draft with notes.txt attached. -/
theorem c10_empty_input_fallback_witness :
    c10St.selectedFile = some notesFile ∧
    (resolveAttachment notesFile).extractedText ≠ "" ∧
    c10St.input = "" ∧
    (handleSubmit c10St 40 { chunks := ["ok"], failed := false }).calls =
      [strategyCallFor c10St.mode
        ("Document Content:\n" ++ (resolveAttachment notesFile).extractedText ++
         "\n\nUser Query: " ++ "Analyze this document.")] :=
  ⟨rfl, by decide, rfl,
   c10_empty_input_fallback c10St notesFile 40 { chunks := ["ok"], failed := false }
     rfl (by decide) rfl⟩

end GlobalAI
